import Mathlib

/-!
Shallow embedding of `sot/opcode_translator/executor/variables/callable.py`
(PaddleSOT): the callable-variable hierarchy, its dispatch tiers, the
checkpoint/restore discipline of inline calls, tracker (provenance)
mutation, and guard production.

Host values, the function graph, the dispatcher table and the inline
executor are external collaborators of this module; they are represented
by explicit parameters (functions and data), while the control flow of
each `call_function` body is translated line by line from the source.
-/

namespace Callable

/-! ## Trackers and the variable store

`Tracker` mirrors `..tracker`: `DanglingTracker`, `DummyTracker(inputs)`,
`GetAttrTracker(obj, attr)` and a frame-origin tracker (`LocalTracker`
etc. in the source; one constructor suffices here).  Variables that
participate in tracker mutation live in a store indexed by allocation
order, so that assignments like `instance_var.tracker = ...` in
`MethodVariable.wrap_method` and `self.tracker = ...` in
`FunctionVariable.bind` are explicit store updates. -/

inductive Tracker where
  | dangling : Tracker
  | dummy (inputs : List Nat) : Tracker
  | getAttr (obj : Nat) (attr : String) : Tracker
  | frame (name : String) : Tracker
deriving DecidableEq, Repr

/-- The variable store: position `i` holds the current tracker of the
variable allocated `i`-th.  (Only provenance is tracked here; host values
are irrelevant to the tracker-mutation claims.) -/
abbrev Store := List Tracker

/-- Allocate a fresh variable with tracker `t`; returns the new store and
the new variable's index. -/
def alloc (s : Store) (t : Tracker) : Store × Nat :=
  (s ++ [t], s.length)

/-- Overwrite the tracker of variable `i` (a `var.tracker = ...`
assignment in the source). -/
def setTracker (s : Store) (i : Nat) (t : Tracker) : Store :=
  s.set i t

/-- Read the tracker of variable `i`. -/
def getTracker (s : Store) (i : Nat) : Tracker :=
  s.getD i .dangling

/-! ## MethodVariable.wrap_method

Two phases, exactly as in the source: first construct the missing
instance/function variables with `DanglingTracker` and the composite
`MethodVariable`, then re-root the trackers of the variables this call
itself created to `GetAttrTracker(method_var, "__self__"/"__func__")`.
A caller-supplied instance or function variable is used as-is. -/

structure WrapAlloc where
  store : Store
  method_var : Nat
  instance_var : Nat
  fn_var : Nat
deriving Repr

/-- Phase 1 of `wrap_method`: build `instance_var` (dangling if the
caller supplied none), `fn_var` (likewise), then the composite
`method_var` carrying the caller's tracker. -/
def wrapMethodAlloc (s : Store) (instArg : Option Nat) (fnArg : Option Nat)
    (tracker : Tracker) : WrapAlloc :=
  let p1 := match instArg with
    | none => alloc s .dangling
    | some v => (s, v)
  let p2 := match fnArg with
    | none => alloc p1.1 .dangling
    | some v => (p1.1, v)
  let p3 := alloc p2.1 tracker
  ⟨p3.1, p3.2, p1.2, p2.2⟩

/-- Phase 2 of `wrap_method`: for each variable constructed in phase 1
(i.e. not supplied by the caller), rewrite its tracker to an attribute
access rooted at the new `method_var`. -/
def wrapMethodReroot (a : WrapAlloc) (instArg : Option Nat) (fnArg : Option Nat) :
    WrapAlloc :=
  let s1 := match instArg with
    | none => setTracker a.store a.instance_var (.getAttr a.method_var "__self__")
    | some _ => a.store
  let s2 := match fnArg with
    | none => setTracker s1 a.fn_var (.getAttr a.method_var "__func__")
    | some _ => s1
  ⟨s2, a.method_var, a.instance_var, a.fn_var⟩

/-- `MethodVariable.wrap_method` over the store. -/
def wrap_method (s : Store) (instArg : Option Nat) (fnArg : Option Nat)
    (tracker : Tracker) : WrapAlloc :=
  wrapMethodReroot (wrapMethodAlloc s instArg fnArg tracker) instArg fnArg

/-! ## FunctionVariable.bind

`bind(instance, name)` creates the composite `MethodVariable` with
tracker `GetAttrTracker(instance, name)`, creates `class_var` with
tracker `GetAttrTracker(instance, "__class__")`, and then rewrites the
function variable's own tracker (`self.tracker`) to
`GetAttrTracker(class_var, name)`. -/

structure BindResult where
  store : Store
  method_var : Nat
  class_var : Nat
deriving Repr

/-- `FunctionVariable.bind` over the store; `self` is the function
variable being bound. -/
def FunctionVariable.bind (s : Store) (self : Nat) (instVar : Nat)
    (name : String) : BindResult :=
  let p1 := alloc s (.getAttr instVar name)
  let p2 := alloc p1.1 (.getAttr instVar "__class__")
  let s3 := setTracker p2.1 self (.getAttr p2.2 name)
  ⟨s3, p1.2, p2.2⟩

/-! ## Graph state, break-graph errors, and the inline call

The function graph is an external collaborator; its observable trace
state is abstracted as a list of emitted operations plus recorded print
statements.  `save_memo` returns the whole state and `restore_memo`
replaces it, matching the memo protocol the source relies on.

`BreakGraphError` carries an optional reason string: `BreakGraphError()`
in the source constructs the error with no message at all, while every
other raise site passes a formatted string. -/

structure GraphState where
  ops : List String
  prints : List String
deriving DecidableEq, Repr

def save_memo (g : GraphState) : GraphState := g

def restore_memo (_g : GraphState) (checkpoint : GraphState) : GraphState :=
  checkpoint

/-- Outcome of a `call_function` body together with the graph state at
the moment control leaves it.  `breakGraph none` is a
`BreakGraphError()` raised without a reason string. -/
inductive Outcome (α : Type) where
  | ok (result : α) (g : GraphState)
  | breakGraph (reason : Option String) (g : GraphState)
deriving DecidableEq, Repr

/-! ## UserDefinedFunctionVariable.call_function

The psdb debug intrinsics (`ASSERT`, `psdb_print`, `psdb_breakpoint`)
are handled immediately; for any other function a checkpoint is saved,
the inline executor runs, and a `FallbackErrorBase` is turned into a
restore + `BreakGraphError` annotated with the original cause. -/

inductive PsdbKind where
  | assert
  | print
  | breakpoint
deriving DecidableEq, Repr

/-- A user-defined function as the callable-variable layer sees it:
its printable representation and whether it is one of the three debug
intrinsics. -/
structure UdfFn where
  repr : String
  psdb : Option PsdbKind
deriving DecidableEq, Repr

/-- Result of the nested inline executor: either an output variable and
the mutated graph state, or a recoverable `FallbackErrorBase` carrying
its message (the graph state at raise time is also carried, since the
caller decides what to do with it). -/
inductive InlineResult where
  | ok (output : Nat) (g : GraphState)
  | fallback (cause : String) (g : GraphState)
deriving DecidableEq, Repr

/-- `handle_psdb_function`: `ASSERT` evaluates the check eagerly and
wraps the literal; `psdb_print` records a print statement on the graph
and returns the literal `None`; `psdb_breakpoint` returns `None`.  For
any other function it returns `none` (Python `None` sentinel meaning
"not a psdb function").  Constant results are modelled as fresh
constant variables identified by a marker string. -/
def handle_psdb_function (fn : UdfFn) (g : GraphState) (argRepr : String) :
    Option (String × GraphState) :=
  match fn.psdb with
  | some .assert => some ("const:assert(" ++ argRepr ++ ")", g)
  | some .print =>
      some ("const:None", { g with prints := g.prints ++ ["[SOT] " ++ argRepr] })
  | some .breakpoint => some ("const:None", g)
  | none => none

/-- `UserDefinedFunctionVariable.call_function`.  `inline` is the nested
`OpcodeInlineExecutor.inline_call` run from a given graph state. -/
def udf_call_function (fn : UdfFn) (g : GraphState) (argRepr : String)
    (inline : GraphState → InlineResult) : Outcome String :=
  match handle_psdb_function fn g argRepr with
  | some (result, g') => .ok result g'
  | none =>
    let checkpoint := save_memo g
    match inline g with
    | .ok output g' => .ok (toString output) g'
    | .fallback cause gFail =>
        .breakGraph
          (some (fn.repr ++ " is raise a inline call error. " ++ cause))
          (restore_memo gFail checkpoint)

/-! ## PaddleApiVariable / TensorFunctionVariable.call_function

Both consult a static unsupported classification before touching the
graph.  `PaddleApiVariable` raises `BreakGraphError` with a message
naming the function; `TensorFunctionVariable` raises `BreakGraphError()`
with no message.  Otherwise they delegate to the graph builder. -/

/-- `PaddleApiVariable.call_function`; `is_break_graph_api` is the
static unsupported-API classification, `call_paddle_api` the graph
builder delegate returning a result variable and the mutated state. -/
def paddle_api_call_function (is_break_graph_api : String → Bool)
    (call_paddle_api : String → GraphState → Nat × GraphState)
    (fnName : String) (g : GraphState) : Outcome Nat :=
  if is_break_graph_api fnName then
    .breakGraph (some ("breakgraph by unsupport function: " ++ fnName)) g
  else
    let r := call_paddle_api fnName g
    .ok r.1 r.2

/-- `TensorFunctionVariable.call_function`; note the bare
`raise BreakGraphError()` in the source: no reason string. -/
def tensor_fn_call_function (is_break_graph_tensor_methods : String → Bool)
    (call_tensor_method : String → GraphState → Nat × GraphState)
    (methodName : String) (g : GraphState) : Outcome Nat :=
  if is_break_graph_tensor_methods methodName then
    .breakGraph none g
  else
    let r := call_tensor_method methodName g
    .ok r.1 r.2

/-! ## BuiltinVariable.call_function

Tier 1: `Dispatcher.dispatch(self.value, *args)`; if a handler is found
it is invoked directly.  Tier 2: scan `magic_method_builtin_dispatch`
candidates in order; reflected candidates reverse the argument list
before the type check only; the resolved method is invoked with the
original arguments.  Tier 3: `BreakGraphError` naming the builtin. -/

/-- A runtime type: its name and the special-method names it defines. -/
structure PyType where
  name : String
  methods : List String
deriving DecidableEq, Repr, Inhabited

/-- An argument variable as the builtin tier sees it: its identity (for
trackers) and its runtime type (`get_py_type`). -/
structure BArg where
  id : Nat
  ty : PyType
deriving DecidableEq, Repr, Inhabited

/-- One entry of `magic_method_builtin_dispatch`. -/
structure MagicMethod where
  name : String
  is_reverse : Bool
deriving DecidableEq, Repr

/-- Record of a resolved magic-method call: the matched special-method
name, the name of the type it was found on, the tracker given to the
fresh `class_var` (`GetAttrTracker(args[0], "__class__")`), the
attribute name under which `fn_var` hangs off `class_var`, and the
argument identities in the order actually passed to the call. -/
structure MagicCall where
  methodName : String
  checkedType : String
  classVarTracker : Tracker
  fnVarAttr : String
  callArgs : List Nat
deriving DecidableEq, Repr

/-- The magic-method scan loop of `BuiltinVariable.call_function`:
first matching candidate wins; `sorted_args` is the reversed list for a
reflected name; the type check is on `sorted_args[0]`; the trackers and
the call use the original `args`. -/
def scanMagic (mms : List MagicMethod) (args : List BArg) : Option MagicCall :=
  match mms with
  | [] => none
  | mm :: rest =>
    let sorted_args := if mm.is_reverse then args.reverse else args
    let arg_type := (sorted_args.headD default).ty
    if mm.name ∈ arg_type.methods then
      some { methodName := mm.name
             checkedType := arg_type.name
             classVarTracker := .getAttr (args.headD default).id "__class__"
             fnVarAttr := mm.name
             callArgs := args.map (·.id) }
    else
      scanMagic rest args

/-- Outcome of `BuiltinVariable.call_function`: a direct dispatcher
handler result, a resolved magic-method call, or a break-graph error. -/
inductive BuiltinOutcome where
  | dispatched (result : Nat)
  | magicCall (c : MagicCall)
  | breakGraph (reason : Option String)
deriving DecidableEq, Repr

/-- `BuiltinVariable.call_function`.  `dispatch` is
`Dispatcher.dispatch` keyed on the wrapped callable's name and the
arguments; `magicTable` is `magic_method_builtin_dispatch`. -/
def builtin_call_function (dispatch : String → List BArg → Option (List BArg → Nat))
    (magicTable : String → List MagicMethod)
    (fnName : String) (args : List BArg) : BuiltinOutcome :=
  match dispatch fnName args with
  | some handler => .dispatched (handler args)
  | none =>
    match scanMagic (magicTable fnName) args with
    | some c => .magicCall c
    | none => .breakGraph (some ("Not support builtin function: " ++ fnName))

/-! ## UserDefinedGeneratorVariable.call_function

The wrapped generator function is invoked with zero arguments; the
resulting generator object is wrapped via the factory with
`DummyTracker([self])`; the supplied traced arguments are unused and the
graph is untouched. -/

/-- A generator-function variable: its own identity and the wrapped host
function (taking the host argument list it would be called with). -/
structure GenVar where
  id : Nat
  value : List Nat → Nat

/-- `UserDefinedGeneratorVariable.call_function`: result value, its
tracker, and the (unchanged) graph state. -/
def generator_call_function (self : GenVar) (_args : List Nat)
    (_kwargs : List (String × Nat)) (g : GraphState) :
    (Nat × Tracker) × GraphState :=
  let iter_ := self.value []
  ((iter_, .dummy [self.id]), g)

/-! ## LayerVariable.make_stringify_guard

Always two clauses: object identity of the frame expression with the
captured host object, and equality of the `training` flag with its
captured value.  The attribute proxy plays no role. -/

structure StringifyExpression where
  expr : String
  free_vars : List String
deriving DecidableEq, Repr

/-- Python `repr` of a bool, as it appears in the guard string. -/
def pyBool (b : Bool) : String := if b then "True" else "False"

/-- A layer variable as guard production sees it: the frame expression
and free variables produced by its tracker, the host object's id and
`training` flag, and the attribute-proxy contents accumulated during
tracing (unused by guard production). -/
structure LayerVar where
  frameExpr : String
  frameFreeVars : List String
  objId : Nat
  training : Bool
  proxyAccessed : List String
deriving DecidableEq, Repr

/-- `LayerVariable.make_stringify_guard`. -/
def layer_make_stringify_guard (l : LayerVar) : List StringifyExpression :=
  [ { expr := "id(" ++ l.frameExpr ++ ") == " ++ toString l.objId
      free_vars := l.frameFreeVars },
    { expr := l.frameExpr ++ ".training == " ++ pyBool l.training
      free_vars := l.frameFreeVars } ]

/-! ## Store lemmas -/

theorem getTracker_append (s : Store) (t : Tracker) (i : Nat) (h : i < s.length) :
    getTracker (s ++ [t]) i = getTracker s i := by
  simp only [getTracker]
  exact List.getD_append _ _ _ _ h

theorem getTracker_set_ne (s : Store) (j : Nat) (t : Tracker) (i : Nat) (h : i ≠ j) :
    getTracker (setTracker s j t) i = getTracker s i := by
  simp only [getTracker, setTracker, List.getD_eq_getElem?_getD]
  rw [List.getElem?_set_ne (by omega)]

theorem getTracker_set_self (s : Store) (j : Nat) (t : Tracker) (h : j < s.length) :
    getTracker (setTracker s j t) j = t := by
  simp only [getTracker, setTracker, List.getD_eq_getElem?_getD]
  rw [List.getElem?_set_eq_of_lt _ h]
  rfl

theorem getTracker_alloc (s : Store) (t : Tracker) :
    getTracker (s ++ [t]) s.length = t := by
  simp [getTracker, List.getD_append_right _ _ _ _ (le_refl _)]

/-- `wrap_method` never touches the tracker of a variable that existed
before the call: its only tracker writes hit the dangling variables it
allocated itself. -/
theorem wrap_method_preserves_existing (s : Store) (instArg fnArg : Option Nat)
    (t : Tracker) (i : Nat) (h : i < s.length) :
    getTracker (wrap_method s instArg fnArg t).store i = getTracker s i := by
  cases instArg <;> cases fnArg <;>
    simp only [wrap_method, wrapMethodAlloc, wrapMethodReroot, alloc]
  · rw [getTracker_set_ne _ _ _ _ (by simp; omega),
      getTracker_set_ne _ _ _ _ (by omega),
      getTracker_append _ _ _ (by simp; omega),
      getTracker_append _ _ _ (by simp; omega),
      getTracker_append _ _ _ h]
  · rw [getTracker_set_ne _ _ _ _ (by omega),
      getTracker_append _ _ _ (by simp; omega),
      getTracker_append _ _ _ h]
  · rw [getTracker_set_ne _ _ _ _ (by simp; omega),
      getTracker_append _ _ _ (by simp; omega),
      getTracker_append _ _ _ h]
  · rw [getTracker_append _ _ _ h]

/-- The two phases of `wrap_method` when neither companion variable is
supplied: dangling after phase 1, re-rooted at the composite after
phase 2. -/
theorem wrap_method_none_none (s : Store) (t : Tracker) :
    (getTracker (wrapMethodAlloc s none none t).store
        (wrapMethodAlloc s none none t).instance_var = .dangling ∧
      getTracker (wrapMethodAlloc s none none t).store
        (wrapMethodAlloc s none none t).fn_var = .dangling) ∧
    (getTracker (wrap_method s none none t).store
        (wrap_method s none none t).instance_var =
      .getAttr (wrap_method s none none t).method_var "__self__" ∧
      getTracker (wrap_method s none none t).store
        (wrap_method s none none t).fn_var =
      .getAttr (wrap_method s none none t).method_var "__func__") := by
  refine ⟨⟨?_, ?_⟩, ?_, ?_⟩
  · simp only [wrapMethodAlloc, alloc]
    rw [getTracker_append _ _ _ (by simp), getTracker_append _ _ _ (by simp),
      getTracker_alloc]
  · simp only [wrapMethodAlloc, alloc]
    rw [getTracker_append _ _ _ (by simp)]
    have h := getTracker_alloc (s ++ [Tracker.dangling]) Tracker.dangling
    simpa using h
  · simp only [wrap_method, wrapMethodAlloc, wrapMethodReroot, alloc]
    rw [getTracker_set_ne _ _ _ _ (by simp),
      getTracker_set_self _ _ _ (by simp [setTracker])]
  · simp only [wrap_method, wrapMethodAlloc, wrapMethodReroot, alloc]
    rw [getTracker_set_self _ _ _ (by simp [setTracker])]

/-- `FunctionVariable.bind` rewrites exactly the bound function
variable's tracker, to `GetAttrTracker(class_var, name)`; every other
pre-existing variable keeps its tracker. -/
theorem bind_effect (s : Store) (self instVar : Nat) (name : String)
    (hself : self < s.length) :
    (∀ i, i < s.length → i ≠ self →
        getTracker (FunctionVariable.bind s self instVar name).store i =
          getTracker s i) ∧
    getTracker (FunctionVariable.bind s self instVar name).store self =
      .getAttr (FunctionVariable.bind s self instVar name).class_var name := by
  constructor
  · intro i hi hne
    simp only [FunctionVariable.bind, alloc]
    rw [getTracker_set_ne _ _ _ _ hne,
      getTracker_append _ _ _ (by simp; omega),
      getTracker_append _ _ _ hi]
  · simp only [FunctionVariable.bind, alloc]
    rw [getTracker_set_self _ _ _ (by simp [setTracker]; omega)]

theorem headD_reverse (l : List BArg) (d : BArg) : l.reverse.headD d = l.getLastD d := by
  cases l with
  | nil => rfl
  | cons a as =>
    rw [List.headD_eq_head?_getD, List.head?_reverse]
    simp [List.getLastD_eq_getLast?]

/-! ## Claims -/

/-- **C1.** For a `UserDefinedFunctionVariable.call_function` on a
function that is not a debug intrinsic, a checkpoint of the graph state
is saved before the inline attempt; if the nested inline execution
raises a `FallbackErrorBase`, the graph is restored to exactly that
checkpoint (the pre-call state `g`, whatever state the failing inline
left behind) and a `BreakGraphError` annotated with the original cause
is raised; if inline execution succeeds, no restore happens and the
inline result and its graph state are returned. -/
theorem udf_checkpoint_restore (fn : UdfFn) (g : GraphState) (argRepr : String)
    (inline : GraphState → InlineResult) (hfn : fn.psdb = none) :
    (∀ cause gFail, inline g = .fallback cause gFail →
        udf_call_function fn g argRepr inline =
          .breakGraph (some (fn.repr ++ " is raise a inline call error. " ++ cause)) g) ∧
    (∀ output g', inline g = .ok output g' →
        udf_call_function fn g argRepr inline = .ok (toString output) g') := by
  constructor
  · intro cause gFail hinl
    simp [udf_call_function, handle_psdb_function, hfn, hinl, save_memo, restore_memo]
  · intro output g' hinl
    simp [udf_call_function, handle_psdb_function, hfn, hinl]

/-- Witness for `udf_checkpoint_restore`: a concrete non-psdb function
whose inline attempt mutates the graph and then falls back; the outcome
restores the untouched pre-call state. -/
theorem udf_checkpoint_restore_witness :
    udf_call_function ⟨"f", none⟩ ⟨["op0"], []⟩ "x"
        (fun g => .fallback "boom" { g with ops := g.ops ++ ["op1"] }) =
      .breakGraph (some ("f is raise a inline call error. boom")) ⟨["op0"], []⟩ :=
  (udf_checkpoint_restore ⟨"f", none⟩ ⟨["op0"], []⟩ "x"
      (fun g => .fallback "boom" { g with ops := g.ops ++ ["op1"] }) rfl).1
    "boom" ⟨["op0", "op1"], []⟩ rfl

/-- **C4.** `PaddleApiVariable.call_function` and
`TensorFunctionVariable.call_function`: an identity classified in the
static unsupported set raises a break-graph condition with the graph
state left equal to its pre-call state; otherwise the call delegates to
the graph builder (`call_paddle_api` / `call_tensor_method`) and
returns its result. -/
theorem api_unsupported_breaks_before_mutation
    (is_break_graph_api : String → Bool)
    (call_paddle_api : String → GraphState → Nat × GraphState)
    (is_break_graph_tensor_methods : String → Bool)
    (call_tensor_method : String → GraphState → Nat × GraphState)
    (fnName methodName : String) (g : GraphState) :
    (is_break_graph_api fnName = true →
        paddle_api_call_function is_break_graph_api call_paddle_api fnName g =
          .breakGraph (some ("breakgraph by unsupport function: " ++ fnName)) g) ∧
    (is_break_graph_api fnName = false →
        paddle_api_call_function is_break_graph_api call_paddle_api fnName g =
          .ok (call_paddle_api fnName g).1 (call_paddle_api fnName g).2) ∧
    (is_break_graph_tensor_methods methodName = true →
        ∃ reason, tensor_fn_call_function is_break_graph_tensor_methods
          call_tensor_method methodName g = .breakGraph reason g) ∧
    (is_break_graph_tensor_methods methodName = false →
        tensor_fn_call_function is_break_graph_tensor_methods call_tensor_method
          methodName g =
          .ok (call_tensor_method methodName g).1 (call_tensor_method methodName g).2) := by
  refine ⟨fun h => ?_, fun h => ?_, fun h => ⟨none, ?_⟩, fun h => ?_⟩ <;>
    simp [paddle_api_call_function, tensor_fn_call_function, h]

/-- Witness for `api_unsupported_breaks_before_mutation`: the
`paddle.numel` API is classified unsupported, so the call breaks the
graph and leaves the state untouched. -/
theorem api_unsupported_breaks_before_mutation_witness :
    paddle_api_call_function (fun f => f == "numel") (fun _ g => (0, g))
        "numel" ⟨["op0"], []⟩ =
      .breakGraph (some ("breakgraph by unsupport function: " ++ "numel"))
        ⟨["op0"], []⟩ :=
  (api_unsupported_breaks_before_mutation (fun f => f == "numel")
      (fun _ g => (0, g)) (fun _ => false) (fun _ g => (0, g))
      "numel" "m" ⟨["op0"], []⟩).1 rfl

/-- The condition tested by one iteration of the magic-method loop:
the candidate's name is defined on the runtime type of `sorted_args[0]`
(the last original argument when the candidate is reflected). -/
def magicMatches (mm : MagicMethod) (args : List BArg) : Prop :=
  mm.name ∈ ((if mm.is_reverse then args.reverse else args).headD default).ty.methods

instance (mm : MagicMethod) (args : List BArg) : Decidable (magicMatches mm args) := by
  unfold magicMatches
  infer_instance

/-- **C2.** `BuiltinVariable.call_function` tries its three tiers
strictly in order: a dispatcher handler, when found, is invoked directly
and its result returned; the magic-method scan runs only on a dispatcher
miss; and when neither tier resolves, a break-graph error naming the
unsupported builtin is raised. -/
theorem builtin_three_tier_order
    (dispatch : String → List BArg → Option (List BArg → Nat))
    (magicTable : String → List MagicMethod)
    (fnName : String) (args : List BArg) :
    (∀ handler, dispatch fnName args = some handler →
        builtin_call_function dispatch magicTable fnName args =
          .dispatched (handler args)) ∧
    (∀ c, dispatch fnName args = none →
        scanMagic (magicTable fnName) args = some c →
        builtin_call_function dispatch magicTable fnName args = .magicCall c) ∧
    (dispatch fnName args = none → scanMagic (magicTable fnName) args = none →
        builtin_call_function dispatch magicTable fnName args =
          .breakGraph (some ("Not support builtin function: " ++ fnName))) := by
  refine ⟨fun handler h => by simp [builtin_call_function, h],
    fun c h1 h2 => by simp [builtin_call_function, h1, h2],
    fun h1 h2 => by simp [builtin_call_function, h1, h2]⟩

/-- Witness for `builtin_three_tier_order`: a dispatcher hit is returned
directly. -/
theorem builtin_three_tier_order_witness :
    builtin_call_function (fun _ _ => some (fun as => as.length))
        (fun _ => []) "len" [] = .dispatched 0 :=
  (builtin_three_tier_order (fun _ _ => some (fun as => as.length))
      (fun _ => []) "len" []).1 (fun as => as.length) rfl

/-- **C3.** In the magic-method tier the type check for a candidate is
performed on the first positional argument for forward names and on the
last positional argument for reflected names (the argument list is
reversed for the check only), the first matching candidate wins, and
the resolved method is called with the arguments in their original
positional order. -/
theorem magic_scan_first_match (mms : List MagicMethod) (args : List BArg)
    (c : MagicCall) (h : scanMagic mms args = some c) :
    c.callArgs = args.map (·.id) ∧
    ∃ pre mm post, mms = pre ++ mm :: post ∧
      (∀ m ∈ pre, ¬ magicMatches m args) ∧ magicMatches mm args ∧
      c.methodName = mm.name ∧
      c.checkedType =
        (if mm.is_reverse then args.getLastD default else args.headD default).ty.name := by
  induction mms with
  | nil => simp [scanMagic] at h
  | cons mm rest ih =>
    rw [scanMagic] at h
    by_cases hm :
        mm.name ∈ ((if mm.is_reverse then args.reverse else args).headD default).ty.methods
    · rw [if_pos hm] at h
      obtain rfl : _ = c := Option.some.inj h
      refine ⟨rfl, [], mm, rest, rfl, by simp, hm, rfl, ?_⟩
      cases hrev : mm.is_reverse <;> simp [hrev, headD_reverse]
    · rw [if_neg hm] at h
      obtain ⟨hargs, pre, mm', post, hsplit, hpre, hmm', hname, hty⟩ := ih h
      refine ⟨hargs, mm :: pre, mm', post, by simp [hsplit], ?_, hmm', hname, hty⟩
      intro m hmem
      rcases List.mem_cons.mp hmem with rfl | hmem'
      · exact hm
      · exact hpre m hmem'

/-- Witness for `magic_scan_first_match`: an addition builtin whose
forward name misses on `int` and whose reflected name matches on the
second operand's type `MyNum`; the check used the last operand but the
call order is the original one. -/
theorem magic_scan_first_match_witness :
    scanMagic [⟨"__add__", false⟩, ⟨"__radd__", true⟩]
        [⟨0, ⟨"int", []⟩⟩, ⟨1, ⟨"MyNum", ["__radd__"]⟩⟩] =
      some ⟨"__radd__", "MyNum", .getAttr 0 "__class__", "__radd__", [0, 1]⟩ ∧
    (⟨"__radd__", "MyNum", .getAttr 0 "__class__", "__radd__",
        ([0, 1] : List Nat)⟩ : MagicCall).callArgs =
      ([⟨0, ⟨"int", []⟩⟩, ⟨1, ⟨"MyNum", ["__radd__"]⟩⟩] : List BArg).map (·.id) :=
  ⟨by decide,
   (magic_scan_first_match [⟨"__add__", false⟩, ⟨"__radd__", true⟩]
      [⟨0, ⟨"int", []⟩⟩, ⟨1, ⟨"MyNum", ["__radd__"]⟩⟩]
      ⟨"__radd__", "MyNum", .getAttr 0 "__class__", "__radd__", [0, 1]⟩
      (by decide)).1⟩

/-- **C10.** Whenever a magic-method candidate matches, the fresh class
variable's tracker is `GetAttrTracker(args[0], "__class__")` — rooted at
the first positional argument — and the resolved function variable
hangs off that class variable under the matched method's name, even
when the candidate is reflected and the method was resolved from the
last operand's type. -/
theorem magic_tracker_rooted_at_first_arg (mms : List MagicMethod)
    (args : List BArg) (c : MagicCall) (h : scanMagic mms args = some c) :
    c.classVarTracker = .getAttr (args.headD default).id "__class__" ∧
    c.fnVarAttr = c.methodName := by
  induction mms with
  | nil => simp [scanMagic] at h
  | cons mm rest ih =>
    rw [scanMagic] at h
    by_cases hm :
        mm.name ∈ ((if mm.is_reverse then args.reverse else args).headD default).ty.methods
    · rw [if_pos hm] at h
      obtain rfl : _ = c := Option.some.inj h
      exact ⟨rfl, rfl⟩
    · rw [if_neg hm] at h
      exact ih h

/-- Witness for `magic_tracker_rooted_at_first_arg`: on the reflected
match of `magic_scan_first_match_witness`, where the method was found on
the last operand's type `MyNum`, the class variable's tracker is still
rooted at argument 0. -/
theorem magic_tracker_rooted_at_first_arg_witness :
    (⟨"__radd__", "MyNum", .getAttr 0 "__class__", "__radd__",
        ([0, 1] : List Nat)⟩ : MagicCall).classVarTracker =
      .getAttr ((([⟨0, ⟨"int", []⟩⟩, ⟨1, ⟨"MyNum", ["__radd__"]⟩⟩] :
        List BArg)).headD default).id "__class__" :=
  (magic_tracker_rooted_at_first_arg [⟨"__add__", false⟩, ⟨"__radd__", true⟩]
      [⟨0, ⟨"int", []⟩⟩, ⟨1, ⟨"MyNum", ["__radd__"]⟩⟩]
      ⟨"__radd__", "MyNum", .getAttr 0 "__class__", "__radd__", [0, 1]⟩
      (by decide)).1

/-- **C5, counterexample.** `FunctionVariable.bind` rewrites the bound
function variable's tracker even though that tracker was not dangling
and the new tracker does not point at the owning composite: with a store
holding a function variable 0 (tracker `frame "f"`) and an instance
variable 1, `bind 0 1 "m"` leaves variable 0 with tracker
`getAttr 3 "m"` (rooted at the fresh class variable 3) — a provenance
mutation outside the single exception the claim allows. -/
theorem bind_mutates_non_dangling_tracker :
    getTracker [Tracker.frame "f", Tracker.frame "x"] 0 = .frame "f" ∧
    Tracker.frame "f" ≠ .dangling ∧
    getTracker (FunctionVariable.bind [Tracker.frame "f", Tracker.frame "x"]
        0 1 "m").store 0 = .getAttr 3 "m" ∧
    Tracker.getAttr 3 "m" ≠ .frame "f" := by
  refine ⟨rfl, by simp, rfl, by simp⟩

/-- **C5, amended.** Trackers are mutated after construction at exactly
two sites: `wrap_method` re-roots only the dangling companion variables
it created itself (every pre-existing variable keeps its tracker), and
`FunctionVariable.bind` additionally rewrites the bound function
variable's own tracker — dangling or not — to
`GetAttrTracker(class_var, name)`, leaving all other pre-existing
trackers unchanged. -/
theorem tracker_mutation_sites (s : Store) (instArg fnArg : Option Nat)
    (t : Tracker) (self instVar : Nat) (name : String)
    (hself : self < s.length) :
    (∀ i, i < s.length →
        getTracker (wrap_method s instArg fnArg t).store i = getTracker s i) ∧
    (∀ i, i < s.length → i ≠ self →
        getTracker (FunctionVariable.bind s self instVar name).store i =
          getTracker s i) ∧
    getTracker (FunctionVariable.bind s self instVar name).store self =
      .getAttr (FunctionVariable.bind s self instVar name).class_var name :=
  ⟨fun i hi => wrap_method_preserves_existing s instArg fnArg t i hi,
   (bind_effect s self instVar name hself).1,
   (bind_effect s self instVar name hself).2⟩

/-- Witness for `tracker_mutation_sites` on a two-variable store. -/
theorem tracker_mutation_sites_witness :
    getTracker (FunctionVariable.bind [Tracker.frame "f", Tracker.frame "x"]
        0 1 "m").store 0 =
      .getAttr (FunctionVariable.bind [Tracker.frame "f", Tracker.frame "x"]
        0 1 "m").class_var "m" :=
  (tracker_mutation_sites [Tracker.frame "f", Tracker.frame "x"] none none
      .dangling 0 1 "m" (by simp)).2.2

/-- **C6.** `MethodVariable.wrap_method` with neither companion
supplied first constructs instance and function variables with a
`Dangling` tracker and, once the composite exists, rewrites their
trackers to `GetAttrTracker(method_var, "__self__")` and
`GetAttrTracker(method_var, "__func__")`, so neither is dangling
afterwards; a caller-supplied instance or function variable keeps its
tracker. -/
theorem wrap_method_provenance (s : Store) (t : Tracker) (vi vf : Nat)
    (instArg fnArg : Option Nat) (hvi : vi < s.length) (hvf : vf < s.length) :
    (getTracker (wrapMethodAlloc s none none t).store
        (wrapMethodAlloc s none none t).instance_var = .dangling ∧
      getTracker (wrapMethodAlloc s none none t).store
        (wrapMethodAlloc s none none t).fn_var = .dangling) ∧
    (getTracker (wrap_method s none none t).store
        (wrap_method s none none t).instance_var =
          .getAttr (wrap_method s none none t).method_var "__self__" ∧
      getTracker (wrap_method s none none t).store
        (wrap_method s none none t).fn_var =
          .getAttr (wrap_method s none none t).method_var "__func__" ∧
      getTracker (wrap_method s none none t).store
        (wrap_method s none none t).instance_var ≠ .dangling ∧
      getTracker (wrap_method s none none t).store
        (wrap_method s none none t).fn_var ≠ .dangling) ∧
    (getTracker (wrap_method s (some vi) fnArg t).store vi = getTracker s vi ∧
      getTracker (wrap_method s instArg (some vf) t).store vf = getTracker s vf) := by
  obtain ⟨⟨h1, h2⟩, h3, h4⟩ := wrap_method_none_none s t
  refine ⟨⟨h1, h2⟩, ⟨h3, h4, ?_, ?_⟩, ?_, ?_⟩
  · rw [h3]; simp
  · rw [h4]; simp
  · exact wrap_method_preserves_existing s (some vi) fnArg t vi hvi
  · exact wrap_method_preserves_existing s instArg (some vf) t vf hvf

/-- Witness for `wrap_method_provenance` on a two-variable store: the
caller-supplied instance variable 0 keeps its `frame "a"` tracker. -/
theorem wrap_method_provenance_witness :
    getTracker (wrap_method [Tracker.frame "a", Tracker.frame "b"]
        (some 0) none .dangling).store 0 =
      getTracker [Tracker.frame "a", Tracker.frame "b"] 0 :=
  ((wrap_method_provenance [Tracker.frame "a", Tracker.frame "b"] .dangling
      0 1 none none (by simp) (by simp)).2.2).1

/-- **C7, counterexample.** The break-graph condition raised by
`TensorFunctionVariable.call_function` for an unsupported tensor method
(`raise BreakGraphError()` in the source) carries no reason string at
all: at the concrete method `numpy`, classified unsupported, the raised
error's reason is `none`. -/
theorem tensor_break_carries_no_reason :
    tensor_fn_call_function (fun m => m == "numpy") (fun _ g => (0, g))
        "numpy" ⟨[], []⟩ = .breakGraph none ⟨[], []⟩ ∧
    (none : Option String).isSome = false :=
  ⟨rfl, rfl⟩

/-- **C7, amended.** Every break-graph condition raised by the callable
hierarchy carries a reason string — the user-defined inline fallback,
the unsupported-Paddle-API check, and the unsupported-builtin tier all
pass one — except the one raised by
`TensorFunctionVariable.call_function` for an unsupported tensor
method, which is constructed with no reason. -/
theorem break_graph_reason_sites :
    (∀ fn g a inline r gr, udf_call_function fn g a inline = .breakGraph r gr →
        r.isSome = true) ∧
    (∀ isb capi f g r gr,
        paddle_api_call_function isb capi f g = .breakGraph r gr →
        r.isSome = true) ∧
    (∀ d m f args r, builtin_call_function d m f args = .breakGraph r →
        r.isSome = true) ∧
    (∀ istm ctm mname g, istm mname = true →
        tensor_fn_call_function istm ctm mname g = .breakGraph none g) := by
  refine ⟨?_, ?_, ?_, ?_⟩
  · intro fn g a inline r gr h
    unfold udf_call_function at h
    cases hps : handle_psdb_function fn g a with
    | some p => rw [hps] at h; simp at h
    | none =>
      rw [hps] at h
      cases hinl : inline g with
      | ok out gs => rw [hinl] at h; simp at h
      | fallback cause gf =>
        rw [hinl] at h
        simp only [Outcome.breakGraph.injEq] at h
        rw [← h.1]
        rfl
  · intro isb capi f g r gr h
    unfold paddle_api_call_function at h
    split at h
    · simp only [Outcome.breakGraph.injEq] at h
      rw [← h.1]
      rfl
    · simp at h
  · intro d m f args r h
    unfold builtin_call_function at h
    cases hd : d f args with
    | some handler => rw [hd] at h; simp at h
    | none =>
      rw [hd] at h
      cases hs : scanMagic (m f) args with
      | some c => rw [hs] at h; simp at h
      | none =>
        rw [hs] at h
        simp only [BuiltinOutcome.breakGraph.injEq] at h
        rw [← h]
        rfl
  · intro istm ctm mname g h
    simp [tensor_fn_call_function, h]

/-- Witness for `break_graph_reason_sites`: the unsupported-Paddle-API
raise at `numel` carries a reason. -/
theorem break_graph_reason_sites_witness :
    (some ("breakgraph by unsupport function: " ++ "numel") :
      Option String).isSome = true :=
  break_graph_reason_sites.2.1 (fun f => f == "numel") (fun _ g => (0, g))
    "numel" ⟨[], []⟩ (some ("breakgraph by unsupport function: " ++ "numel"))
    ⟨[], []⟩ rfl

/-- **C8.** `LayerVariable.make_stringify_guard` always produces
exactly two guard clauses — the identity of the frame-reachable
expression with the captured host object by `id`, and the equality of
the object's `training` flag with its captured value — independently of
which attributes the trace accessed through the layer's proxy.  (The
`check_guard` decorator lives outside this module; the guard body
itself is unconditional.) -/
theorem layer_guard_two_clauses (l : LayerVar) :
    layer_make_stringify_guard l =
      [{ expr := "id(" ++ l.frameExpr ++ ") == " ++ toString l.objId
         free_vars := l.frameFreeVars },
       { expr := l.frameExpr ++ ".training == " ++ pyBool l.training
         free_vars := l.frameFreeVars }] ∧
    (layer_make_stringify_guard l).length = 2 ∧
    (∀ accessed : List String,
        layer_make_stringify_guard { l with proxyAccessed := accessed } =
          layer_make_stringify_guard l) :=
  ⟨rfl, rfl, fun _ => rfl⟩

/-- **C9.** `UserDefinedGeneratorVariable.call_function` invokes the
wrapped generator function with zero arguments, discards every supplied
positional and keyword argument, performs no graph mutation, and wraps
the generator object with `DummyTracker([self])`. -/
theorem generator_call_discards_args (self : GenVar) (args args2 : List Nat)
    (kwargs kwargs2 : List (String × Nat)) (g : GraphState) :
    generator_call_function self args kwargs g =
      ((self.value [], .dummy [self.id]), g) ∧
    generator_call_function self args kwargs g =
      generator_call_function self args2 kwargs2 g :=
  ⟨rfl, rfl⟩

end Callable
